import Mathlib

/-!
Verification of the Zoom-Meeting-API-Demo gateway.

The development shallowly embeds the core of the repository:
the static class ZoomService in src/zoom.service.ts (token exchange and
three resource fetchers) and the three Express route handlers in
src/app.ts that call it. Outbound HTTP is modelled by a Provider
oracle mapping the index of the outbound call within one relay
operation, together with the request, to a network outcome; axios
default semantics (reject on non-2xx status and on transport failure)
are modelled by axiosRun. Each ZoomService method returns the list of
outbound requests it issued (its trace) together with its result.
-/

/-- A decoded JSON value, as produced by the axios response decoder. -/
inductive Json where
  | null : Json
  | bool (b : Bool) : Json
  | num (n : Int) : Json
  | str (s : String) : Json
  | arr (xs : List Json) : Json
  | obj (fields : List (String × Json)) : Json

/-- JS property access on a decoded value: field lookup on objects,
undefined (none) on everything else and on a missing key. -/
def Json.getField : Json → String → Option Json
  | .obj fields, k => fields.lookup k
  | _, _ => none

mutual

/-- JS template-literal coercion of a JSON-decoded value to a string. -/
def Json.tmplStr : Json → String
  | .null => "null"
  | .bool b => cond b "true" "false"
  | .num n => toString n
  | .str s => s
  | .obj _ => "[object Object]"
  | .arr xs => Json.joinElems xs

/-- JS Array.prototype.join with the default comma separator: null
elements become the empty string. -/
def Json.joinElems : List Json → String
  | [] => ""
  | [Json.null] => ""
  | [j] => Json.tmplStr j
  | Json.null :: rest => "," ++ Json.joinElems rest
  | j :: rest => Json.tmplStr j ++ "," ++ Json.joinElems rest

end

/-- JS template-literal coercion of a possibly-undefined value:
undefined prints as the string undefined. -/
def jsTmpl : Option Json → String
  | none => "undefined"
  | some j => j.tmplStr

/-- Interpolation of a possibly-absent environment variable inside a
template literal: an absent variable prints as the string undefined. -/
def envInterp : Option String → String
  | none => "undefined"
  | some s => s

/-- An outbound HTTP request as configured through axios: method, URL,
query parameters (the axios params option), headers, and the
form-encoded body fields (URLSearchParams) for POST. -/
structure HttpRequest where
  method : String
  url : String
  queryParams : List (String × String)
  headers : List (String × String)
  body : List (String × String)
deriving DecidableEq, Repr

/-- A provider HTTP response: status code and decoded JSON body. -/
structure HttpResponse where
  status : Nat
  data : Json

/-- Outcome of one outbound network call: a response from the provider,
or a transport-level failure (e.g. a timeout). -/
inductive NetOutcome where
  | response (r : HttpResponse) : NetOutcome
  | timeout : NetOutcome

/-- The provider oracle: given the index of the outbound call within
one relay operation and the request, yields the network outcome. -/
def Provider : Type := Nat → HttpRequest → NetOutcome

/-- A JS exception as thrown by axios: an HTTP error carrying the
status and decoded body of a non-2xx response, or a network error. -/
inductive JsError where
  | axiosHttpError (status : Nat) (data : Json) : JsError
  | axiosNetworkError : JsError

/-- axios request semantics with the default validateStatus: resolve
with the response when its status is 2xx, reject with an HTTP error
otherwise, reject with a network error on transport failure. -/
def axiosRun (p : Provider) (n : Nat) (req : HttpRequest) : Except JsError HttpResponse :=
  match p n req with
  | .timeout => .error .axiosNetworkError
  | .response r =>
      if 200 ≤ r.status ∧ r.status < 300 then .ok r
      else .error (.axiosHttpError r.status r.data)

/-- The base64 alphabet in index order. -/
def b64chars : List Char :=
  "ABCDEFGHIJKLMNOPQRSTUVWXYZabcdefghijklmnopqrstuvwxyz0123456789+/".data

/-- The base64 character for a 6-bit value. -/
def b64encChar (n : Nat) : Char := b64chars.getD n 'A'

/-- The 6-bit value of a base64 character, none if not in the alphabet. -/
def b64decChar (c : Char) : Option Nat := b64chars.findIdx? (fun d => d == c)

/-- Standard base64 encoding of a byte list, with padding, as performed
by Buffer.toString with the base64 encoding argument. -/
def b64encode : List Nat → List Char
  | [] => []
  | [a] => [b64encChar (a / 4), b64encChar (a % 4 * 16), '=', '=']
  | [a, b] => [b64encChar (a / 4), b64encChar (a % 4 * 16 + b / 16),
               b64encChar (b % 16 * 4), '=']
  | a :: b :: c :: rest =>
      b64encChar (a / 4) :: b64encChar (a % 4 * 16 + b / 16) ::
      b64encChar (b % 16 * 4 + c / 64) :: b64encChar (c % 64) :: b64encode rest

/-- Decode a final base64 quad, honouring padding. -/
def b64decodeLast (w x y z : Char) : Option (List Nat) :=
  if y = '=' then
    if z = '=' then
      match b64decChar w, b64decChar x with
      | some a, some b => if b % 16 = 0 then some [a * 4 + b / 16] else none
      | _, _ => none
    else none
  else if z = '=' then
    match b64decChar w, b64decChar x, b64decChar y with
    | some a, some b, some c =>
        if c % 4 = 0 then some [a * 4 + b / 16, b % 16 * 16 + c / 4] else none
    | _, _, _ => none
  else
    match b64decChar w, b64decChar x, b64decChar y, b64decChar z with
    | some a, some b, some c, some d =>
        some [a * 4 + b / 16, b % 16 * 16 + c / 4, c % 4 * 64 + d]
    | _, _, _, _ => none

/-- Standard base64 decoding of a character list back to bytes. -/
def b64decode : List Char → Option (List Nat)
  | [] => some []
  | w :: x :: y :: z :: rest =>
      if rest = [] then b64decodeLast w x y z
      else
        match b64decChar w, b64decChar x, b64decChar y, b64decChar z,
              b64decode rest with
        | some a, some b, some c, some d, some tail =>
            some ((a * 4 + b / 16) :: (b % 16 * 16 + c / 4) :: (c % 4 * 64 + d) :: tail)
        | _, _, _, _, _ => none
  | _ => none

/-- UTF-8 encoding of one character, as bytes (Nat values below 256). -/
def utf8Bytes (c : Char) : List Nat :=
  let n := c.toNat
  if n < 128 then [n]
  else if n < 2048 then [192 + n / 64, 128 + n % 64]
  else if n < 65536 then [224 + n / 4096, 128 + n / 64 % 64, 128 + n % 64]
  else [240 + n / 262144, 128 + n / 4096 % 64, 128 + n / 64 % 64, 128 + n % 64]

/-- The UTF-8 bytes of a string, as produced by Buffer.from. -/
def strBytes (s : String) : List Nat := s.data.flatMap utf8Bytes

/-- Base64 encoding of the UTF-8 bytes of a string, the composition of
Buffer.from and Buffer.toString with the base64 encoding argument. -/
def b64encodeStr (s : String) : String := String.mk (b64encode (strBytes s))

/-- The configuration consumed by the core: the three environment
variables, each possibly absent. -/
structure Config where
  ZOOM_CLIENT_ID : Option String
  ZOOM_CLIENT_SECRET : Option String
  ZOOM_ACCOUNT_ID : Option String

def ZOOM_API_URL : String := "https://api.zoom.us/v2"

/-- The token-exchange request built by getAccessToken: a form-encoded
POST to the provider token endpoint with grant_type and account_id in
the body and the Basic credentials header. -/
def tokenRequest (cfg : Config) : HttpRequest where
  method := "POST"
  url := "https://zoom.us/oauth/token"
  queryParams := []
  headers :=
    [("Content-Type", "application/x-www-form-urlencoded"),
     ("Authorization", "Basic " ++ b64encodeStr
        (envInterp cfg.ZOOM_CLIENT_ID ++ ":" ++ envInterp cfg.ZOOM_CLIENT_SECRET))]
  body :=
    [("grant_type", "account_credentials"),
     ("account_id", cfg.ZOOM_ACCOUNT_ID.getD "")]

/-- The token value extracted from a token-endpoint 2xx response: the
access_token field of the decoded body, possibly undefined. -/
def extractedToken (rt : HttpResponse) : Option Json :=
  rt.data.getField "access_token"

/-- The bearer-token string spliced into the Authorization header of a
resource request after a 2xx token exchange. -/
def bearerToken (rt : HttpResponse) : String := jsTmpl (extractedToken rt)

/-- The resource request issued by getUserMeetings. -/
def userMeetingsRequest (token userId : String) : HttpRequest where
  method := "GET"
  url := ZOOM_API_URL ++ "/users/" ++ userId ++ "/meetings"
  queryParams := [("type", "past")]
  headers := [("Authorization", "Bearer " ++ token)]
  body := []

/-- The resource request issued by getMeetingParticipants. -/
def meetingParticipantsRequest (token meetingId : String) : HttpRequest where
  method := "GET"
  url := ZOOM_API_URL ++ "/metrics/meetings/" ++ meetingId ++ "/participants"
  queryParams := []
  headers := [("Authorization", "Bearer " ++ token)]
  body := []

/-- The resource request issued by getMeetingDetails. -/
def meetingDetailsRequest (token meetingId : String) : HttpRequest where
  method := "GET"
  url := ZOOM_API_URL ++ "/meetings/" ++ meetingId
  queryParams := []
  headers := [("Authorization", "Bearer " ++ token)]
  body := []

namespace ZoomService

/-- getAccessToken from src/zoom.service.ts: build the Basic
credentials from the two environment variables, POST the form body to
the token endpoint, and on a 2xx response return the access_token
field of the decoded body (undefined when missing, with no error
raised). Returns the issued requests together with the result. -/
def getAccessToken (cfg : Config) (p : Provider) (n : Nat) :
    List HttpRequest × Except JsError (Option Json) :=
  ([tokenRequest cfg],
   match axiosRun p n (tokenRequest cfg) with
   | .ok resp => .ok (resp.data.getField "access_token")
   | .error e => .error e)

/-- getUserMeetings from src/zoom.service.ts: fetch a token, then GET
the meetings of the user with query parameter type past, returning the
decoded body. -/
def getUserMeetings (cfg : Config) (p : Provider) (userId : String) :
    List HttpRequest × Except JsError Json :=
  match getAccessToken cfg p 0 with
  | (tr, .error e) => (tr, .error e)
  | (tr, .ok token) =>
      let req := userMeetingsRequest (jsTmpl token) userId
      (tr ++ [req],
       match axiosRun p 1 req with
       | .ok resp => .ok resp.data
       | .error e => .error e)

/-- getMeetingParticipants from src/zoom.service.ts: fetch a token,
then GET the participants metrics of the meeting. -/
def getMeetingParticipants (cfg : Config) (p : Provider) (meetingId : String) :
    List HttpRequest × Except JsError Json :=
  match getAccessToken cfg p 0 with
  | (tr, .error e) => (tr, .error e)
  | (tr, .ok token) =>
      let req := meetingParticipantsRequest (jsTmpl token) meetingId
      (tr ++ [req],
       match axiosRun p 1 req with
       | .ok resp => .ok resp.data
       | .error e => .error e)

/-- getMeetingDetails from src/zoom.service.ts: fetch a token, then GET
the meeting. -/
def getMeetingDetails (cfg : Config) (p : Provider) (meetingId : String) :
    List HttpRequest × Except JsError Json :=
  match getAccessToken cfg p 0 with
  | (tr, .error e) => (tr, .error e)
  | (tr, .ok token) =>
      let req := meetingDetailsRequest (jsTmpl token) meetingId
      (tr ++ [req],
       match axiosRun p 1 req with
       | .ok resp => .ok resp.data
       | .error e => .error e)

end ZoomService

/-- A gateway HTTP response as produced by the Express handlers. -/
structure GatewayResponse where
  status : Nat
  body : Json

/-- The route handler for GET /user/:userId/meetings in src/app.ts:
relay, serialize the result on success, otherwise respond 500 with the
static body. -/
def userMeetingsHandler (cfg : Config) (p : Provider) (userId : String) :
    GatewayResponse :=
  match (ZoomService.getUserMeetings cfg p userId).2 with
  | .ok d => { status := 200, body := d }
  | .error _ =>
      { status := 500, body := .obj [("error", .str "Failed to get user meetings")] }

/-- The route handler for GET /meeting/:meetingId/participants in
src/app.ts. -/
def meetingParticipantsHandler (cfg : Config) (p : Provider) (meetingId : String) :
    GatewayResponse :=
  match (ZoomService.getMeetingParticipants cfg p meetingId).2 with
  | .ok d => { status := 200, body := d }
  | .error _ =>
      { status := 500,
        body := .obj [("error", .str "Failed to get meeting participants")] }

/-- The route handler for GET /meeting/:meetingId/details in
src/app.ts. -/
def meetingDetailsHandler (cfg : Config) (p : Provider) (meetingId : String) :
    GatewayResponse :=
  match (ZoomService.getMeetingDetails cfg p meetingId).2 with
  | .ok d => { status := 200, body := d }
  | .error _ =>
      { status := 500, body := .obj [("error", .str "Failed to get meeting details")] }

/-- Decoding the base64 character of a 6-bit value recovers the value. -/
theorem b64decChar_encChar : ∀ n < 64, b64decChar (b64encChar n) = some n := by
  decide

/-- The base64 character of a 6-bit value is never the padding character. -/
theorem b64encChar_ne_pad : ∀ n < 64, b64encChar n ≠ '=' := by
  decide

/-- base64 encoding yields empty output only on empty input. -/
theorem b64encode_eq_nil_iff (bs : List Nat) : b64encode bs = [] ↔ bs = [] := by
  match bs with
  | [] => simp [b64encode]
  | [a] => simp [b64encode]
  | [a, b] => simp [b64encode]
  | a :: b :: c :: rest => simp [b64encode]

/-- base64 decoding inverts base64 encoding on byte lists. -/
theorem b64decode_b64encode : ∀ (bs : List Nat), (∀ x ∈ bs, x < 256) →
    b64decode (b64encode bs) = some bs
  | [], _ => rfl
  | [a], h => by
      have ha : a < 256 := h a (by simp)
      have e0 := b64decChar_encChar (a / 4) (by omega)
      have e1 := b64decChar_encChar (a % 4 * 16) (by omega)
      simp only [b64encode, b64decode, b64decodeLast, e0, e1]
      simp only [reduceIte]
      rw [if_pos (by omega)]
      simp only [Option.some.injEq, List.cons.injEq, and_true]
      omega
  | [a, b], h => by
      have ha : a < 256 := h a (by simp)
      have hb : b < 256 := h b (by simp)
      have e0 := b64decChar_encChar (a / 4) (by omega)
      have e1 := b64decChar_encChar (a % 4 * 16 + b / 16) (by omega)
      have e2 := b64decChar_encChar (b % 16 * 4) (by omega)
      have n2 := b64encChar_ne_pad (b % 16 * 4) (by omega)
      simp only [b64encode, b64decode, b64decodeLast, if_neg n2, e0, e1, e2]
      simp only [reduceIte]
      rw [if_pos (by omega)]
      simp only [Option.some.injEq, List.cons.injEq, and_true]
      omega
  | a :: b :: c :: rest, h => by
      have ha : a < 256 := h a (by simp)
      have hb : b < 256 := h b (by simp)
      have hc : c < 256 := h c (by simp)
      have e0 := b64decChar_encChar (a / 4) (by omega)
      have e1 := b64decChar_encChar (a % 4 * 16 + b / 16) (by omega)
      have e2 := b64decChar_encChar (b % 16 * 4 + c / 64) (by omega)
      have e3 := b64decChar_encChar (c % 64) (by omega)
      by_cases hr : rest = []
      · subst hr
        have n2 := b64encChar_ne_pad (b % 16 * 4 + c / 64) (by omega)
        have n3 := b64encChar_ne_pad (c % 64) (by omega)
        simp only [b64encode, b64decode, b64decodeLast, if_neg n2, if_neg n3,
          e0, e1, e2, e3]
        simp only [reduceIte]
        simp only [Option.some.injEq, List.cons.injEq, and_true]
        omega
      · have ih := b64decode_b64encode rest (fun x hx => h x (by simp [hx]))
        have hne : b64encode rest ≠ [] := by
          intro hh
          exact hr ((b64encode_eq_nil_iff rest).mp hh)
        simp only [b64encode, b64decode, if_neg hne, e0, e1, e2, e3, ih]
        simp only [Option.some.injEq, List.cons.injEq, eq_self_iff_true, and_true]
        omega

/-- Every character code is below 1114112. -/
theorem char_toNat_lt (c : Char) : c.toNat < 1114112 := by
  have h : c.val.toNat < 55296 ∨ (57343 < c.val.toNat ∧ c.val.toNat < 1114112) :=
    c.valid
  show c.val.toNat < 1114112
  omega

/-- The UTF-8 encoding of a character consists of bytes. -/
theorem utf8Bytes_lt (c : Char) : ∀ x ∈ utf8Bytes c, x < 256 := by
  intro x hx
  have hc := char_toNat_lt c
  simp only [utf8Bytes] at hx
  by_cases h1 : c.toNat < 128
  · simp [h1] at hx
    omega
  · by_cases h2 : c.toNat < 2048
    · simp [h1, h2] at hx
      rcases hx with h | h <;> omega
    · by_cases h3 : c.toNat < 65536
      · simp [h1, h2, h3] at hx
        rcases hx with h | h | h <;> omega
      · simp [h1, h2, h3] at hx
        rcases hx with h | h | h | h <;> omega

/-- The UTF-8 encoding of a string consists of bytes. -/
theorem strBytes_lt (s : String) : ∀ x ∈ strBytes s, x < 256 := by
  intro x hx
  simp only [strBytes, List.mem_flatMap] at hx
  obtain ⟨c, _, hcx⟩ := hx
  exact utf8Bytes_lt c x hcx

/-- Base64-encoding a string and decoding recovers its UTF-8 bytes. -/
theorem b64decode_b64encodeStr (s : String) :
    b64decode (b64encodeStr s).data = some (strBytes s) :=
  b64decode_b64encode (strBytes s) (strBytes_lt s)

/-- axios resolves when the provider answers 2xx. -/
theorem axiosRun_ok {p : Provider} {n : Nat} {req : HttpRequest} {r : HttpResponse}
    (h : p n req = .response r) (h1 : 200 ≤ r.status) (h2 : r.status < 300) :
    axiosRun p n req = .ok r := by
  simp [axiosRun, h, h1, h2]

/-- axios rejects with an HTTP error when the provider answers non-2xx. -/
theorem axiosRun_nonSuccess {p : Provider} {n : Nat} {req : HttpRequest}
    {r : HttpResponse} (h : p n req = .response r)
    (hs : r.status < 200 ∨ 300 ≤ r.status) :
    axiosRun p n req = .error (.axiosHttpError r.status r.data) := by
  have hns : ¬(200 ≤ r.status ∧ r.status < 300) := by omega
  simp [axiosRun, h, hns]

/-- axios rejects with a network error on transport failure. -/
theorem axiosRun_timeout {p : Provider} {n : Nat} {req : HttpRequest}
    (h : p n req = .timeout) :
    axiosRun p n req = .error .axiosNetworkError := by
  simp [axiosRun, h]

/-- Evaluation of getAccessToken on a resolved token call. -/
theorem getAccessToken_ok {cfg : Config} {p : Provider} {rt : HttpResponse}
    (h : axiosRun p 0 (tokenRequest cfg) = .ok rt) :
    ZoomService.getAccessToken cfg p 0 =
      ([tokenRequest cfg], .ok (extractedToken rt)) := by
  simp [ZoomService.getAccessToken, h, extractedToken]

/-- Evaluation of getAccessToken on a rejected token call. -/
theorem getAccessToken_err {cfg : Config} {p : Provider} {e : JsError}
    (h : axiosRun p 0 (tokenRequest cfg) = .error e) :
    ZoomService.getAccessToken cfg p 0 = ([tokenRequest cfg], .error e) := by
  simp [ZoomService.getAccessToken, h]

/-- Evaluation of getUserMeetings after a resolved token call. -/
theorem getUserMeetings_eq {cfg : Config} {p : Provider} {rt : HttpResponse}
    (uid : String) (h : axiosRun p 0 (tokenRequest cfg) = .ok rt) :
    ZoomService.getUserMeetings cfg p uid =
      ([tokenRequest cfg, userMeetingsRequest (bearerToken rt) uid],
       match axiosRun p 1 (userMeetingsRequest (bearerToken rt) uid) with
       | .ok resp => .ok resp.data
       | .error e => .error e) := by
  simp [ZoomService.getUserMeetings, getAccessToken_ok h, bearerToken]

/-- Evaluation of getUserMeetings on a rejected token call. -/
theorem getUserMeetings_tokenFail {cfg : Config} {p : Provider} {e : JsError}
    (uid : String) (h : axiosRun p 0 (tokenRequest cfg) = .error e) :
    ZoomService.getUserMeetings cfg p uid = ([tokenRequest cfg], .error e) := by
  simp [ZoomService.getUserMeetings, getAccessToken_err h]

/-- Evaluation of getMeetingParticipants after a resolved token call. -/
theorem getMeetingParticipants_eq {cfg : Config} {p : Provider} {rt : HttpResponse}
    (mid : String) (h : axiosRun p 0 (tokenRequest cfg) = .ok rt) :
    ZoomService.getMeetingParticipants cfg p mid =
      ([tokenRequest cfg, meetingParticipantsRequest (bearerToken rt) mid],
       match axiosRun p 1 (meetingParticipantsRequest (bearerToken rt) mid) with
       | .ok resp => .ok resp.data
       | .error e => .error e) := by
  simp [ZoomService.getMeetingParticipants, getAccessToken_ok h, bearerToken]

/-- Evaluation of getMeetingParticipants on a rejected token call. -/
theorem getMeetingParticipants_tokenFail {cfg : Config} {p : Provider} {e : JsError}
    (mid : String) (h : axiosRun p 0 (tokenRequest cfg) = .error e) :
    ZoomService.getMeetingParticipants cfg p mid = ([tokenRequest cfg], .error e) := by
  simp [ZoomService.getMeetingParticipants, getAccessToken_err h]

/-- Evaluation of getMeetingDetails after a resolved token call. -/
theorem getMeetingDetails_eq {cfg : Config} {p : Provider} {rt : HttpResponse}
    (mid : String) (h : axiosRun p 0 (tokenRequest cfg) = .ok rt) :
    ZoomService.getMeetingDetails cfg p mid =
      ([tokenRequest cfg, meetingDetailsRequest (bearerToken rt) mid],
       match axiosRun p 1 (meetingDetailsRequest (bearerToken rt) mid) with
       | .ok resp => .ok resp.data
       | .error e => .error e) := by
  simp [ZoomService.getMeetingDetails, getAccessToken_ok h, bearerToken]

/-- Evaluation of getMeetingDetails on a rejected token call. -/
theorem getMeetingDetails_tokenFail {cfg : Config} {p : Provider} {e : JsError}
    (mid : String) (h : axiosRun p 0 (tokenRequest cfg) = .error e) :
    ZoomService.getMeetingDetails cfg p mid = ([tokenRequest cfg], .error e) := by
  simp [ZoomService.getMeetingDetails, getAccessToken_err h]

/-- A fully configured credential triple for concrete evaluation. -/
def cfg0 : Config := ⟨some "id", some "secret", some "acct"⟩

/-- A configuration with all three environment variables absent. -/
def cfgAbsent : Config := ⟨none, none, none⟩

/-- A token-endpoint 2xx body carrying an access token. -/
def tokJson : Json := .obj [("access_token", .str "tok123")]

/-- A resource 2xx body as decoded from the provider. -/
def meetingsJson : Json := .obj [("meetings", .arr [Json.obj [("id", .str "m1")]])]

/-- A provider error body. -/
def rejectJson : Json := .obj [("reason", .str "invalid client")]

/-- A resource error body. -/
def notFoundJson : Json := .obj [("message", .str "not found")]

/-- A provider resolving the token exchange with a 2xx token and every
later call with a 2xx resource payload. -/
def pGood : Provider := fun n _ =>
  if n = 0 then .response ⟨200, tokJson⟩ else .response ⟨200, meetingsJson⟩

/-- A provider rejecting the token exchange with status 401. -/
def pReject : Provider := fun n _ =>
  if n = 0 then .response ⟨401, rejectJson⟩ else .response ⟨200, meetingsJson⟩

/-- A provider answering the token exchange 200 with a body that has no
access_token field. -/
def pNoToken : Provider := fun n _ =>
  if n = 0 then .response ⟨200, Json.obj []⟩ else .response ⟨200, meetingsJson⟩

/-- A provider where the resource fetch fails with 404 after a
successful token exchange. -/
def pResourceFail : Provider := fun n _ =>
  if n = 0 then .response ⟨200, tokJson⟩ else .response ⟨404, notFoundJson⟩

/-- Claim C1: for every resource kind and identifier, when the token
exchange succeeds and the resource fetch succeeds, the gateway handler
returns status 200 with exactly the decoded JSON body of the provider
response, with no field added, removed, or reshaped. -/
theorem claim1_relay_passthrough (cfg : Config) (p : Provider) (uid mid : String)
    (rt : HttpResponse) (ht : p 0 (tokenRequest cfg) = .response rt)
    (ht1 : 200 ≤ rt.status) (ht2 : rt.status < 300) :
    (∀ rr : HttpResponse,
       p 1 (userMeetingsRequest (bearerToken rt) uid) = .response rr →
       200 ≤ rr.status → rr.status < 300 →
       userMeetingsHandler cfg p uid = ⟨200, rr.data⟩) ∧
    (∀ rr : HttpResponse,
       p 1 (meetingParticipantsRequest (bearerToken rt) mid) = .response rr →
       200 ≤ rr.status → rr.status < 300 →
       meetingParticipantsHandler cfg p mid = ⟨200, rr.data⟩) ∧
    (∀ rr : HttpResponse,
       p 1 (meetingDetailsRequest (bearerToken rt) mid) = .response rr →
       200 ≤ rr.status → rr.status < 300 →
       meetingDetailsHandler cfg p mid = ⟨200, rr.data⟩) := by
  have htok := axiosRun_ok ht ht1 ht2
  refine ⟨?_, ?_, ?_⟩ <;> intro rr hr hr1 hr2
  · simp [userMeetingsHandler, getUserMeetings_eq uid htok, axiosRun_ok hr hr1 hr2]
  · simp [meetingParticipantsHandler, getMeetingParticipants_eq mid htok,
      axiosRun_ok hr hr1 hr2]
  · simp [meetingDetailsHandler, getMeetingDetails_eq mid htok,
      axiosRun_ok hr hr1 hr2]

/-- Concrete instantiation of claim C1 at a mocked provider. -/
theorem claim1_relay_passthrough_witness :
    userMeetingsHandler cfg0 pGood "u1" = ⟨200, meetingsJson⟩ ∧
    meetingParticipantsHandler cfg0 pGood "m1" = ⟨200, meetingsJson⟩ ∧
    meetingDetailsHandler cfg0 pGood "m1" = ⟨200, meetingsJson⟩ := by
  obtain ⟨h1, h2, h3⟩ :=
    claim1_relay_passthrough cfg0 pGood "u1" "m1" ⟨200, tokJson⟩ rfl
      (by decide) (by decide)
  exact ⟨h1 ⟨200, meetingsJson⟩ rfl (by decide) (by decide),
         h2 ⟨200, meetingsJson⟩ rfl (by decide) (by decide),
         h3 ⟨200, meetingsJson⟩ rfl (by decide) (by decide)⟩

/-- Claim C2: every relay operation performs its token exchange before
its resource fetch (the trace of each method starts with the token
request), and on a 2xx token reply rt the only other request of the
operation carries the Authorization value built from the token
extracted from rt, so the fetch uses exactly the token obtained by the
same invocation and no token from elsewhere. -/
theorem claim2_token_per_operation (cfg : Config) (p : Provider) (uid mid : String) :
    ((ZoomService.getUserMeetings cfg p uid).1.head? = some (tokenRequest cfg) ∧
     (ZoomService.getMeetingParticipants cfg p mid).1.head? = some (tokenRequest cfg) ∧
     (ZoomService.getMeetingDetails cfg p mid).1.head? = some (tokenRequest cfg)) ∧
    (∀ rt : HttpResponse, p 0 (tokenRequest cfg) = .response rt →
       200 ≤ rt.status → rt.status < 300 →
       (ZoomService.getUserMeetings cfg p uid).1 =
         [tokenRequest cfg, userMeetingsRequest (jsTmpl (extractedToken rt)) uid] ∧
       (ZoomService.getMeetingParticipants cfg p mid).1 =
         [tokenRequest cfg,
          meetingParticipantsRequest (jsTmpl (extractedToken rt)) mid] ∧
       (ZoomService.getMeetingDetails cfg p mid).1 =
         [tokenRequest cfg, meetingDetailsRequest (jsTmpl (extractedToken rt)) mid]) := by
  constructor
  · refine ⟨?_, ?_, ?_⟩ <;> rcases h : axiosRun p 0 (tokenRequest cfg) with e | rt
    · simp [getUserMeetings_tokenFail uid h]
    · simp [getUserMeetings_eq uid h]
    · simp [getMeetingParticipants_tokenFail mid h]
    · simp [getMeetingParticipants_eq mid h]
    · simp [getMeetingDetails_tokenFail mid h]
    · simp [getMeetingDetails_eq mid h]
  · intro rt ht ht1 ht2
    have htok := axiosRun_ok ht ht1 ht2
    refine ⟨?_, ?_, ?_⟩
    · simp [getUserMeetings_eq uid htok, bearerToken]
    · simp [getMeetingParticipants_eq mid htok, bearerToken]
    · simp [getMeetingDetails_eq mid htok, bearerToken]

/-- Concrete instantiation of claim C2 at a mocked provider. -/
theorem claim2_token_per_operation_witness :
    (ZoomService.getUserMeetings cfg0 pGood "u1").1 =
      [tokenRequest cfg0, userMeetingsRequest "tok123" "u1"] ∧
    (ZoomService.getMeetingParticipants cfg0 pGood "m1").1 =
      [tokenRequest cfg0, meetingParticipantsRequest "tok123" "m1"] ∧
    (ZoomService.getMeetingDetails cfg0 pGood "m1").1 =
      [tokenRequest cfg0, meetingDetailsRequest "tok123" "m1"] :=
  (claim2_token_per_operation cfg0 pGood "u1" "m1").2 ⟨200, tokJson⟩ rfl
    (by decide) (by decide)

/-- Claim C3: for every configured credential triple, the token
exchange is a form-encoded POST to the provider token endpoint whose
body carries grant_type account_credentials and the configured account
id, and whose Authorization header is the string Basic followed by a
base64 value that decodes exactly to the client id, a colon, and the
client secret. -/
theorem claim3_token_request_shape (cfg : Config) (cid sec aid : String)
    (h1 : cfg.ZOOM_CLIENT_ID = some cid) (h2 : cfg.ZOOM_CLIENT_SECRET = some sec)
    (h3 : cfg.ZOOM_ACCOUNT_ID = some aid) :
    tokenRequest cfg =
      { method := "POST"
        url := "https://zoom.us/oauth/token"
        queryParams := []
        headers := [("Content-Type", "application/x-www-form-urlencoded"),
                    ("Authorization", "Basic " ++ b64encodeStr (cid ++ ":" ++ sec))]
        body := [("grant_type", "account_credentials"), ("account_id", aid)] } ∧
    b64decode (b64encodeStr (cid ++ ":" ++ sec)).data =
      some (strBytes (cid ++ ":" ++ sec)) := by
  constructor
  · simp [tokenRequest, h1, h2, h3, envInterp]
  · exact b64decode_b64encodeStr _

/-- Concrete instantiation of claim C3. -/
theorem claim3_token_request_shape_witness :
    tokenRequest cfg0 =
      { method := "POST"
        url := "https://zoom.us/oauth/token"
        queryParams := []
        headers := [("Content-Type", "application/x-www-form-urlencoded"),
                    ("Authorization",
                     "Basic " ++ b64encodeStr ("id" ++ ":" ++ "secret"))]
        body := [("grant_type", "account_credentials"), ("account_id", "acct")] } ∧
    b64decode (b64encodeStr ("id" ++ ":" ++ "secret")).data =
      some (strBytes ("id" ++ ":" ++ "secret")) :=
  claim3_token_request_shape cfg0 "id" "secret" "acct" rfl rfl rfl

/-- Claim C4: after a 2xx token reply, the resource request of each
kind has exactly the specified method, URL, query parameters, and the
single bearer Authorization header: GET the user meetings path with
type past, GET the participants metrics path with no query, GET the
meeting path with no query. -/
theorem claim4_resource_request_shape (cfg : Config) (p : Provider)
    (uid mid : String) (rt : HttpResponse)
    (ht : p 0 (tokenRequest cfg) = .response rt) (ht1 : 200 ≤ rt.status)
    (ht2 : rt.status < 300) :
    (ZoomService.getUserMeetings cfg p uid).1 =
      [tokenRequest cfg,
       { method := "GET"
         url := "https://api.zoom.us/v2/users/" ++ uid ++ "/meetings"
         queryParams := [("type", "past")]
         headers := [("Authorization", "Bearer " ++ bearerToken rt)]
         body := [] }] ∧
    (ZoomService.getMeetingParticipants cfg p mid).1 =
      [tokenRequest cfg,
       { method := "GET"
         url := "https://api.zoom.us/v2/metrics/meetings/" ++ mid ++ "/participants"
         queryParams := []
         headers := [("Authorization", "Bearer " ++ bearerToken rt)]
         body := [] }] ∧
    (ZoomService.getMeetingDetails cfg p mid).1 =
      [tokenRequest cfg,
       { method := "GET"
         url := "https://api.zoom.us/v2/meetings/" ++ mid
         queryParams := []
         headers := [("Authorization", "Bearer " ++ bearerToken rt)]
         body := [] }] := by
  have htok := axiosRun_ok ht ht1 ht2
  refine ⟨?_, ?_, ?_⟩
  · simp [getUserMeetings_eq uid htok, userMeetingsRequest, ZOOM_API_URL]
  · simp [getMeetingParticipants_eq mid htok, meetingParticipantsRequest,
      ZOOM_API_URL]
  · simp [getMeetingDetails_eq mid htok, meetingDetailsRequest, ZOOM_API_URL]

/-- Concrete instantiation of claim C4. -/
theorem claim4_resource_request_shape_witness :
    (ZoomService.getUserMeetings cfg0 pGood "u1").1 =
      [tokenRequest cfg0,
       { method := "GET"
         url := "https://api.zoom.us/v2/users/" ++ "u1" ++ "/meetings"
         queryParams := [("type", "past")]
         headers := [("Authorization", "Bearer " ++ "tok123")]
         body := [] }] ∧
    (ZoomService.getMeetingParticipants cfg0 pGood "m1").1 =
      [tokenRequest cfg0,
       { method := "GET"
         url := "https://api.zoom.us/v2/metrics/meetings/" ++ "m1" ++ "/participants"
         queryParams := []
         headers := [("Authorization", "Bearer " ++ "tok123")]
         body := [] }] ∧
    (ZoomService.getMeetingDetails cfg0 pGood "m1").1 =
      [tokenRequest cfg0,
       { method := "GET"
         url := "https://api.zoom.us/v2/meetings/" ++ "m1"
         queryParams := []
         headers := [("Authorization", "Bearer " ++ "tok123")]
         body := [] }] :=
  claim4_resource_request_shape cfg0 pGood "u1" "m1" ⟨200, tokJson⟩ rfl
    (by decide) (by decide)

/-- Claim C5: when the token exchange fails, no resource fetch is
issued at all (the trace of each method is only the token request) and
each gateway endpoint responds 500 with its static error body. -/
theorem claim5_token_failure_aborts (cfg : Config) (p : Provider)
    (uid mid : String) (e : JsError)
    (h : axiosRun p 0 (tokenRequest cfg) = .error e) :
    (ZoomService.getUserMeetings cfg p uid).1 = [tokenRequest cfg] ∧
    (ZoomService.getMeetingParticipants cfg p mid).1 = [tokenRequest cfg] ∧
    (ZoomService.getMeetingDetails cfg p mid).1 = [tokenRequest cfg] ∧
    userMeetingsHandler cfg p uid =
      ⟨500, .obj [("error", .str "Failed to get user meetings")]⟩ ∧
    meetingParticipantsHandler cfg p mid =
      ⟨500, .obj [("error", .str "Failed to get meeting participants")]⟩ ∧
    meetingDetailsHandler cfg p mid =
      ⟨500, .obj [("error", .str "Failed to get meeting details")]⟩ := by
  refine ⟨?_, ?_, ?_, ?_, ?_, ?_⟩
  · simp [getUserMeetings_tokenFail uid h]
  · simp [getMeetingParticipants_tokenFail mid h]
  · simp [getMeetingDetails_tokenFail mid h]
  · simp [userMeetingsHandler, getUserMeetings_tokenFail uid h]
  · simp [meetingParticipantsHandler, getMeetingParticipants_tokenFail mid h]
  · simp [meetingDetailsHandler, getMeetingDetails_tokenFail mid h]

/-- Concrete instantiation of claim C5: token endpoint answers 401. -/
theorem claim5_token_failure_aborts_witness :
    (ZoomService.getUserMeetings cfg0 pReject "u1").1 = [tokenRequest cfg0] ∧
    (ZoomService.getMeetingParticipants cfg0 pReject "m1").1 = [tokenRequest cfg0] ∧
    (ZoomService.getMeetingDetails cfg0 pReject "m1").1 = [tokenRequest cfg0] ∧
    userMeetingsHandler cfg0 pReject "u1" =
      ⟨500, .obj [("error", .str "Failed to get user meetings")]⟩ ∧
    meetingParticipantsHandler cfg0 pReject "m1" =
      ⟨500, .obj [("error", .str "Failed to get meeting participants")]⟩ ∧
    meetingDetailsHandler cfg0 pReject "m1" =
      ⟨500, .obj [("error", .str "Failed to get meeting details")]⟩ :=
  claim5_token_failure_aborts cfg0 pReject "u1" "m1"
    (.axiosHttpError 401 rejectJson) rfl

/-- Claim C6: any failure of the underlying relay operation, in the
token exchange or in the resource fetch, yields the same 500 response
with the fixed endpoint-specific message; the 500 body is a constant
independent of the underlying error, so the provider error text never
appears in the client-facing response. -/
theorem claim6_static_error_translation (cfg : Config) (p : Provider)
    (uid mid : String) :
    (∀ e : JsError, (ZoomService.getUserMeetings cfg p uid).2 = .error e →
       userMeetingsHandler cfg p uid =
         ⟨500, .obj [("error", .str "Failed to get user meetings")]⟩) ∧
    (∀ e : JsError, (ZoomService.getMeetingParticipants cfg p mid).2 = .error e →
       meetingParticipantsHandler cfg p mid =
         ⟨500, .obj [("error", .str "Failed to get meeting participants")]⟩) ∧
    (∀ e : JsError, (ZoomService.getMeetingDetails cfg p mid).2 = .error e →
       meetingDetailsHandler cfg p mid =
         ⟨500, .obj [("error", .str "Failed to get meeting details")]⟩) := by
  refine ⟨?_, ?_, ?_⟩ <;> intro e he
  · simp [userMeetingsHandler, he]
  · simp [meetingParticipantsHandler, he]
  · simp [meetingDetailsHandler, he]

/-- Concrete instantiation of claim C6: the resource fetch fails with
404 after a successful token exchange. -/
theorem claim6_static_error_translation_witness :
    userMeetingsHandler cfg0 pResourceFail "u1" =
      ⟨500, .obj [("error", .str "Failed to get user meetings")]⟩ ∧
    meetingParticipantsHandler cfg0 pResourceFail "m1" =
      ⟨500, .obj [("error", .str "Failed to get meeting participants")]⟩ ∧
    meetingDetailsHandler cfg0 pResourceFail "m1" =
      ⟨500, .obj [("error", .str "Failed to get meeting details")]⟩ :=
  ⟨(claim6_static_error_translation cfg0 pResourceFail "u1" "m1").1
     (.axiosHttpError 404 notFoundJson) rfl,
   (claim6_static_error_translation cfg0 pResourceFail "u1" "m1").2.1
     (.axiosHttpError 404 notFoundJson) rfl,
   (claim6_static_error_translation cfg0 pResourceFail "u1" "m1").2.2
     (.axiosHttpError 404 notFoundJson) rfl⟩

/-- Claim C7 fails on the code: with the token endpoint replying 200
and a decoded body without an access_token field, getAccessToken does
not surface any error: it resolves with no token value (the undefined
field), and getMeetingDetails still issues the resource fetch, with
the literal string undefined spliced into the bearer header. -/
theorem claim7_counterexample :
    (ZoomService.getAccessToken cfg0 pNoToken 0).2 = .ok none ∧
    (ZoomService.getMeetingDetails cfg0 pNoToken "m1").1 =
      [tokenRequest cfg0, meetingDetailsRequest "undefined" "m1"] := by
  constructor <;> rfl

/-- Claim C7 amended: the exchange issues exactly one token request
with no retry; a non-2xx provider reply and a transport failure are
each surfaced to the caller as an error; but a 2xx reply whose decoded
body has a missing or malformed access_token field is not surfaced as
an error: the exchange resolves with the possibly-undefined field
value and the relay proceeds to the resource fetch. -/
theorem claim7_exchange_failures (cfg : Config) (p : Provider) (n : Nat) :
    (ZoomService.getAccessToken cfg p n).1 = [tokenRequest cfg] ∧
    (∀ rt : HttpResponse, p n (tokenRequest cfg) = .response rt →
       rt.status < 200 ∨ 300 ≤ rt.status →
       (ZoomService.getAccessToken cfg p n).2 =
         .error (.axiosHttpError rt.status rt.data)) ∧
    (p n (tokenRequest cfg) = .timeout →
       (ZoomService.getAccessToken cfg p n).2 = .error .axiosNetworkError) ∧
    (∀ rt : HttpResponse, p n (tokenRequest cfg) = .response rt →
       200 ≤ rt.status → rt.status < 300 →
       (ZoomService.getAccessToken cfg p n).2 =
         .ok (rt.data.getField "access_token")) := by
  refine ⟨rfl, ?_, ?_, ?_⟩
  · intro rt h hs
    simp [ZoomService.getAccessToken, axiosRun_nonSuccess h hs]
  · intro h
    simp [ZoomService.getAccessToken, axiosRun_timeout h]
  · intro rt h h1 h2
    simp [ZoomService.getAccessToken, axiosRun_ok h h1 h2]

/-- Concrete instantiation of the amended claim C7. -/
theorem claim7_exchange_failures_witness :
    (ZoomService.getAccessToken cfg0 pReject 0).2 =
      .error (.axiosHttpError 401 rejectJson) ∧
    (ZoomService.getAccessToken cfg0 pNoToken 0).2 =
      .ok ((Json.obj []).getField "access_token") := by
  constructor
  · exact (claim7_exchange_failures cfg0 pReject 0).2.1 ⟨401, rejectJson⟩ rfl
      (by decide)
  · exact (claim7_exchange_failures cfg0 pNoToken 0).2.2.2 ⟨200, Json.obj []⟩ rfl
      (by decide) (by decide)

/-- Claim C8: whatever configuration values are absent, the core
performs no local validation: the first and only preparatory step of
every relay call is still the outbound token request (with the JS
interpolation of the absent values in the Basic header, and the empty
string for a missing account id), and when the provider rejects that
request each relay call fails with the provider error, not locally
before a network call. -/
theorem claim8_no_local_validation (cfg : Config) (p : Provider) (uid mid : String)
    (_habs : cfg.ZOOM_CLIENT_ID = none ∨ cfg.ZOOM_CLIENT_SECRET = none ∨
            cfg.ZOOM_ACCOUNT_ID = none) :
    ((ZoomService.getUserMeetings cfg p uid).1.head? = some (tokenRequest cfg) ∧
     (ZoomService.getMeetingParticipants cfg p mid).1.head? = some (tokenRequest cfg) ∧
     (ZoomService.getMeetingDetails cfg p mid).1.head? = some (tokenRequest cfg)) ∧
    (∀ rt : HttpResponse, p 0 (tokenRequest cfg) = .response rt →
       rt.status < 200 ∨ 300 ≤ rt.status →
       (ZoomService.getUserMeetings cfg p uid).2 =
         .error (.axiosHttpError rt.status rt.data) ∧
       (ZoomService.getMeetingParticipants cfg p mid).2 =
         .error (.axiosHttpError rt.status rt.data) ∧
       (ZoomService.getMeetingDetails cfg p mid).2 =
         .error (.axiosHttpError rt.status rt.data)) ∧
    (tokenRequest cfgAbsent).headers =
      [("Content-Type", "application/x-www-form-urlencoded"),
       ("Authorization", "Basic " ++ b64encodeStr ("undefined" ++ ":" ++ "undefined"))] ∧
    (tokenRequest cfgAbsent).body =
      [("grant_type", "account_credentials"), ("account_id", "")] := by
  refine ⟨⟨?_, ?_, ?_⟩, ?_, ?_, ?_⟩
  · rcases h : axiosRun p 0 (tokenRequest cfg) with e | rt
    · simp [getUserMeetings_tokenFail uid h]
    · simp [getUserMeetings_eq uid h]
  · rcases h : axiosRun p 0 (tokenRequest cfg) with e | rt
    · simp [getMeetingParticipants_tokenFail mid h]
    · simp [getMeetingParticipants_eq mid h]
  · rcases h : axiosRun p 0 (tokenRequest cfg) with e | rt
    · simp [getMeetingDetails_tokenFail mid h]
    · simp [getMeetingDetails_eq mid h]
  · intro rt h hs
    have herr := axiosRun_nonSuccess h hs
    exact ⟨by simp [getUserMeetings_tokenFail uid herr],
           by simp [getMeetingParticipants_tokenFail mid herr],
           by simp [getMeetingDetails_tokenFail mid herr]⟩
  · simp [tokenRequest, cfgAbsent, envInterp]
  · simp [tokenRequest, cfgAbsent]

/-- Concrete instantiation of claim C8: all three values absent and the
provider rejecting the exchange with 401. -/
theorem claim8_no_local_validation_witness :
    (ZoomService.getUserMeetings cfgAbsent pReject "u1").1.head? =
      some (tokenRequest cfgAbsent) ∧
    (ZoomService.getUserMeetings cfgAbsent pReject "u1").2 =
      .error (.axiosHttpError 401 rejectJson) ∧
    (tokenRequest cfgAbsent).headers =
      [("Content-Type", "application/x-www-form-urlencoded"),
       ("Authorization",
        "Basic " ++ b64encodeStr ("undefined" ++ ":" ++ "undefined"))] := by
  obtain ⟨⟨hh, _, _⟩, hrej, hhdr, _⟩ :=
    claim8_no_local_validation cfgAbsent pReject "u1" "m1" (Or.inl rfl)
  exact ⟨hh, (hrej ⟨401, rejectJson⟩ rfl (by decide)).1, hhdr⟩

/-- Claim C9: a single relay invocation issues at most two outbound
calls, exactly two when it succeeds, the trace never repeats a request
(no retry), and a token-exchange failure aborts the invocation after
its single call. -/
theorem claim9_call_budget (cfg : Config) (p : Provider) (uid mid : String) :
    ((ZoomService.getUserMeetings cfg p uid).1.length ≤ 2 ∧
     (ZoomService.getMeetingParticipants cfg p mid).1.length ≤ 2 ∧
     (ZoomService.getMeetingDetails cfg p mid).1.length ≤ 2) ∧
    ((∀ d, (ZoomService.getUserMeetings cfg p uid).2 = .ok d →
        (ZoomService.getUserMeetings cfg p uid).1.length = 2) ∧
     (∀ d, (ZoomService.getMeetingParticipants cfg p mid).2 = .ok d →
        (ZoomService.getMeetingParticipants cfg p mid).1.length = 2) ∧
     (∀ d, (ZoomService.getMeetingDetails cfg p mid).2 = .ok d →
        (ZoomService.getMeetingDetails cfg p mid).1.length = 2)) ∧
    ((ZoomService.getUserMeetings cfg p uid).1.Nodup ∧
     (ZoomService.getMeetingParticipants cfg p mid).1.Nodup ∧
     (ZoomService.getMeetingDetails cfg p mid).1.Nodup) ∧
    (∀ e, axiosRun p 0 (tokenRequest cfg) = .error e →
       (ZoomService.getUserMeetings cfg p uid).1 = [tokenRequest cfg] ∧
       (ZoomService.getMeetingParticipants cfg p mid).1 = [tokenRequest cfg] ∧
       (ZoomService.getMeetingDetails cfg p mid).1 = [tokenRequest cfg]) := by
  refine ⟨⟨?_, ?_, ?_⟩, ⟨?_, ?_, ?_⟩, ⟨?_, ?_, ?_⟩, ?_⟩
  · rcases h : axiosRun p 0 (tokenRequest cfg) with e | rt
    · simp [getUserMeetings_tokenFail uid h]
    · simp [getUserMeetings_eq uid h]
  · rcases h : axiosRun p 0 (tokenRequest cfg) with e | rt
    · simp [getMeetingParticipants_tokenFail mid h]
    · simp [getMeetingParticipants_eq mid h]
  · rcases h : axiosRun p 0 (tokenRequest cfg) with e | rt
    · simp [getMeetingDetails_tokenFail mid h]
    · simp [getMeetingDetails_eq mid h]
  · intro d hd
    rcases h : axiosRun p 0 (tokenRequest cfg) with e | rt
    · rw [getUserMeetings_tokenFail uid h] at hd
      simp at hd
    · simp [getUserMeetings_eq uid h]
  · intro d hd
    rcases h : axiosRun p 0 (tokenRequest cfg) with e | rt
    · rw [getMeetingParticipants_tokenFail mid h] at hd
      simp at hd
    · simp [getMeetingParticipants_eq mid h]
  · intro d hd
    rcases h : axiosRun p 0 (tokenRequest cfg) with e | rt
    · rw [getMeetingDetails_tokenFail mid h] at hd
      simp at hd
    · simp [getMeetingDetails_eq mid h]
  · rcases h : axiosRun p 0 (tokenRequest cfg) with e | rt
    · simp [getUserMeetings_tokenFail uid h]
    · simp [getUserMeetings_eq uid h, tokenRequest, userMeetingsRequest]
  · rcases h : axiosRun p 0 (tokenRequest cfg) with e | rt
    · simp [getMeetingParticipants_tokenFail mid h]
    · simp [getMeetingParticipants_eq mid h, tokenRequest, meetingParticipantsRequest]
  · rcases h : axiosRun p 0 (tokenRequest cfg) with e | rt
    · simp [getMeetingDetails_tokenFail mid h]
    · simp [getMeetingDetails_eq mid h, tokenRequest, meetingDetailsRequest]
  · intro e h
    exact ⟨(getUserMeetings_tokenFail uid h) ▸ rfl,
           (getMeetingParticipants_tokenFail mid h) ▸ rfl,
           (getMeetingDetails_tokenFail mid h) ▸ rfl⟩

/-- Concrete instantiation of claim C9. -/
theorem claim9_call_budget_witness :
    (ZoomService.getUserMeetings cfg0 pGood "u1").1.length = 2 ∧
    (ZoomService.getMeetingDetails cfg0 pReject "m1").1 = [tokenRequest cfg0] := by
  constructor
  · exact (claim9_call_budget cfg0 pGood "u1" "m1").2.1.1 meetingsJson rfl
  · exact ((claim9_call_budget cfg0 pReject "u1" "m1").2.2.2
      (.axiosHttpError 401 rejectJson) rfl).2.2

/-- Claim C10: the identifier is spliced into the resource URL by
literal string concatenation, with no percent-encoding, escaping, or
validation: for every identifier string, also one that is empty or
contains a slash, question mark, or hash, the URLs of the issued
requests are exactly the fixed prefix of the kind, the identifier, and
the fixed suffix, so such characters change the requested provider
path. -/
theorem claim10_literal_splice (cfg : Config) (p : Provider) (s : String)
    (rt : HttpResponse) (ht : p 0 (tokenRequest cfg) = .response rt)
    (ht1 : 200 ≤ rt.status) (ht2 : rt.status < 300) :
    (ZoomService.getUserMeetings cfg p s).1.map HttpRequest.url =
      ["https://zoom.us/oauth/token",
       "https://api.zoom.us/v2/users/" ++ s ++ "/meetings"] ∧
    (ZoomService.getMeetingParticipants cfg p s).1.map HttpRequest.url =
      ["https://zoom.us/oauth/token",
       "https://api.zoom.us/v2/metrics/meetings/" ++ s ++ "/participants"] ∧
    (ZoomService.getMeetingDetails cfg p s).1.map HttpRequest.url =
      ["https://zoom.us/oauth/token", "https://api.zoom.us/v2/meetings/" ++ s] := by
  have htok := axiosRun_ok ht ht1 ht2
  refine ⟨?_, ?_, ?_⟩
  · simp [getUserMeetings_eq s htok, tokenRequest, userMeetingsRequest, ZOOM_API_URL]
  · simp [getMeetingParticipants_eq s htok, tokenRequest,
      meetingParticipantsRequest, ZOOM_API_URL]
  · simp [getMeetingDetails_eq s htok, tokenRequest, meetingDetailsRequest,
      ZOOM_API_URL]

/-- Concrete instantiation of claim C10: an identifier containing a
slash redirects the meeting-details fetch to the participants path. -/
theorem claim10_literal_splice_witness :
    (ZoomService.getMeetingDetails cfg0 pGood "m1/participants").1.map
        HttpRequest.url =
      ["https://zoom.us/oauth/token",
       "https://api.zoom.us/v2/meetings/" ++ "m1/participants"] :=
  (claim10_literal_splice cfg0 pGood "m1/participants" ⟨200, tokJson⟩ rfl
    (by decide) (by decide)).2.2
